import Mathlib

/-!
# Verification of the Super Metroid memory-battle game core

Shallow embedding of `super_metroid_tiled.py` (the only source file of the
repository).  Python machine integers are modelled as `Int` (player energy,
tile health: both can be mutated by subtraction and, in some code paths, go
negative) or `Nat` (scores, timers, inventory counters: only ever increased
or reset to literals).  Python dictionaries with a fixed key set
(`self.inventory`) are modelled as a structure with one field per key;
dictionaries used as lookup tables with `.get(key, default)` are modelled as
total functions on `String`.  A Python `KeyError` (raised by
`self.inventory[k]` / `self.boss_defeats[k]` for an absent key) is modelled
by returning `none` from an `Option`-valued operation.  The pygame random
calls are modelled by explicit parameters: the per-tick first-strike coin
flip (`random.random() < self.get_attack_first_chance()`) is a `Bool`
argument, and the ice-beam freeze rolls (`random.random() < 0.10`) are an
oracle `Nat → Bool` consumed in program order.  The combat log and all
rendering are presentation-only and are not modelled.
-/

namespace MetroidTiled

/-- The `TileType` enum from the source. -/
inductive TileType where
  | empty
  | item
  | boss
  | enemy
deriving DecidableEq, Repr

/-- The `AreaType` enum from the source. -/
inductive AreaType where
  | crateria
  | brinstar
  | norfair
  | maridia
  | tourian
  | wrecked_ship
  | ceres
deriving DecidableEq, Repr

/-- The `TileState` enum from the source. -/
inductive TileState where
  | face_down
  | face_up
  | destroyed
deriving DecidableEq, Repr

/-- The `Tile` class: grid position, kind, payload id, area, reveal state,
health, max health and the ice-beam frozen flag. -/
structure Tile where
  x : Nat
  y : Nat
  tile_type : TileType
  item_id : String
  area : AreaType
  state : TileState
  health : Int
  max_health : Int
  frozen : Bool
deriving DecidableEq, Repr

/-- One entry of the `self.inventory` dict: Python stores either a `bool`
(unique items) or an `int` counter (consumables) under each key. -/
inductive InvEntry where
  | boolean (b : Bool)
  | counter (n : Nat)
deriving DecidableEq, Repr

/-- The `self.inventory` dict from `initialize_game`, one field per key. -/
structure Inventory where
  missiles : Nat
  supers : Nat
  power_bombs : Nat
  energy_tank : Nat
  morph : Bool
  bomb : Bool
  hijump : Bool
  speed : Bool
  grapple : Bool
  xray : Bool
  spring : Bool
  space : Bool
  screw : Bool
  charge : Bool
  spazer : Bool
  wave : Bool
  ice : Bool
  plasma : Bool
  varia : Bool
  gravity : Bool
deriving DecidableEq, Repr

/-- Reading `self.inventory[id]`: the dict read, `none` models a Python `KeyError`
for a key that is not in the fixed inventory key set. -/
def Inventory.lookup (inv : Inventory) (id : String) : Option InvEntry :=
  if id = "missiles" then some (.counter inv.missiles)
  else if id = "supers" then some (.counter inv.supers)
  else if id = "power_bombs" then some (.counter inv.power_bombs)
  else if id = "energy_tank" then some (.counter inv.energy_tank)
  else if id = "morph" then some (.boolean inv.morph)
  else if id = "bomb" then some (.boolean inv.bomb)
  else if id = "hijump" then some (.boolean inv.hijump)
  else if id = "speed" then some (.boolean inv.speed)
  else if id = "grapple" then some (.boolean inv.grapple)
  else if id = "xray" then some (.boolean inv.xray)
  else if id = "spring" then some (.boolean inv.spring)
  else if id = "space" then some (.boolean inv.space)
  else if id = "screw" then some (.boolean inv.screw)
  else if id = "charge" then some (.boolean inv.charge)
  else if id = "spazer" then some (.boolean inv.spazer)
  else if id = "wave" then some (.boolean inv.wave)
  else if id = "ice" then some (.boolean inv.ice)
  else if id = "plasma" then some (.boolean inv.plasma)
  else if id = "varia" then some (.boolean inv.varia)
  else if id = "gravity" then some (.boolean inv.gravity)
  else none

/-- Writing `self.inventory[id] = e`: the dict write.  The game only writes keys it
has just read successfully, so the unknown-key fallthrough is unreachable. -/
def Inventory.store (inv : Inventory) (id : String) (e : InvEntry) : Inventory :=
  match e with
  | .counter n =>
    if id = "missiles" then { inv with missiles := n }
    else if id = "supers" then { inv with supers := n }
    else if id = "power_bombs" then { inv with power_bombs := n }
    else if id = "energy_tank" then { inv with energy_tank := n }
    else inv
  | .boolean b =>
    if id = "morph" then { inv with morph := b }
    else if id = "bomb" then { inv with bomb := b }
    else if id = "hijump" then { inv with hijump := b }
    else if id = "speed" then { inv with speed := b }
    else if id = "grapple" then { inv with grapple := b }
    else if id = "xray" then { inv with xray := b }
    else if id = "spring" then { inv with spring := b }
    else if id = "space" then { inv with space := b }
    else if id = "screw" then { inv with screw := b }
    else if id = "charge" then { inv with charge := b }
    else if id = "spazer" then { inv with spazer := b }
    else if id = "wave" then { inv with wave := b }
    else if id = "ice" then { inv with ice := b }
    else if id = "plasma" then { inv with plasma := b }
    else if id = "varia" then { inv with varia := b }
    else if id = "gravity" then { inv with gravity := b }
    else inv

/-- The dict read `self.enemy_damage.get(id, 3)` from `populate_grid` /
`process_enemy_turns`: per-enemy attack damage, defaulting to 3. -/
def enemy_damage_get (id : String) : Nat :=
  if id = "geemer" then 3
  else if id = "skree" then 4
  else if id = "side_hopper" then 5
  else if id = "ciser" then 6
  else 3

/-- From `Game.get_boss_damage`: per-boss attack damage, defaulting to 10. -/
def get_boss_damage (boss_id : String) : Nat :=
  if boss_id = "bomb_torizo" then 5
  else if boss_id = "spore_spawn" then 8
  else if boss_id = "kraid" then 15
  else if boss_id = "crocomire" then 10
  else if boss_id = "phantoon" then 12
  else if boss_id = "botwoon" then 6
  else if boss_id = "draygon" then 20
  else if boss_id = "gold_torizo" then 18
  else if boss_id = "ridley" then 25
  else if boss_id = "mother_brain_1" then 30
  else if boss_id = "mother_brain_2" then 20
  else if boss_id = "samus_ship" then 3
  else if boss_id = "ceres_station" then 4
  else if boss_id = "golden_four" then 35
  else 10

/-- The `item_scores` dict (identical literal in `handle_click` and
`auto_grab_adjacent_items`), with the `.get(item_id, 10)` default. -/
def item_scores_get (id : String) : Nat :=
  if id = "missiles" then 10
  else if id = "supers" then 20
  else if id = "power_bombs" then 30
  else if id = "energy_tank" then 50
  else if id = "morph" then 100
  else if id = "bomb" then 100
  else if id = "hijump" then 150
  else if id = "speed" then 150
  else if id = "grapple" then 200
  else if id = "xray" then 200
  else if id = "spring" then 150
  else if id = "space" then 200
  else if id = "screw" then 250
  else if id = "charge" then 150
  else if id = "spazer" then 200
  else if id = "wave" then 200
  else if id = "ice" then 200
  else if id = "plasma" then 250
  else if id = "varia" then 300
  else if id = "gravity" then 400
  else 10

/-- The `boss_scores` dict in `process_player_attacks`, default 1000. -/
def boss_scores_get (id : String) : Nat :=
  if id = "bomb_torizo" then 500
  else if id = "spore_spawn" then 800
  else if id = "kraid" then 2000
  else if id = "crocomire" then 1200
  else if id = "phantoon" then 1500
  else if id = "botwoon" then 1000
  else if id = "draygon" then 1800
  else if id = "gold_torizo" then 1600
  else if id = "ridley" then 2500
  else if id = "mother_brain_1" then 5000
  else if id = "mother_brain_2" then 3000
  else if id = "samus_ship" then 800
  else if id = "golden_four" then 4000
  else 1000

/-- The `enemy_scores` dict in `process_player_attacks`, default 25. -/
def enemy_scores_get (id : String) : Nat :=
  if id = "geemer" then 25
  else if id = "skree" then 35
  else if id = "side_hopper" then 50
  else if id = "ciser" then 75
  else 25

/-- From `Game.get_player_damage`.  All quantities stay non-negative, so the
Python `int` arithmetic is modelled on `Nat`.  `int(base_damage * 1.25)` and
`int(base_damage * 1.5)`: 1.25 and 1.5 are exactly representable binary
floats (5/4 and 3/2), the products are exact for all magnitudes the game can
reach, and `int` truncates the non-negative result, i.e. floor division:
`base_damage * 5 / 4` and `base_damage * 3 / 2` on `Nat`. -/
def get_player_damage (inv : Inventory) (boss_id : String) : Nat :=
  let base_damage := 10
  let base_damage := if inv.charge then base_damage + 20 else base_damage
  let base_damage := if inv.ice then base_damage + 20 else base_damage
  let base_damage := if inv.spazer then base_damage + 30 else base_damage
  let base_damage := if inv.wave then base_damage + 20 else base_damage
  let base_damage := if inv.plasma then base_damage + 25 else base_damage
  let base_damage := if inv.screw then base_damage + 50 else base_damage
  let base_damage := if inv.speed then base_damage + 20 else base_damage
  let base_damage := if inv.bomb then base_damage + 50 else base_damage
  let missile_base := 10
  let base_damage := base_damage + inv.missiles * missile_base
  let base_damage := base_damage + inv.supers * (missile_base * 2)
  let base_damage := base_damage + inv.power_bombs * (missile_base * 3)
  let base_damage :=
    if boss_id = "draygon" ∧ inv.grapple then base_damage * 3 else base_damage
  let base_damage := if inv.varia then base_damage * 5 / 4 else base_damage
  let base_damage := if inv.gravity then base_damage * 3 / 2 else base_damage
  base_damage

/-- The player damage computation exactly as claim C1 words it: base 10 plus
flat additive item bonuses, plus 10/20/30 per missile/super/power bomb, then
a ×3 multiplier for draygon with grapple, then suit multipliers ×1.25 and
×1.5 applied last, in that order, each truncated to an integer. -/
def playerDamageClaim (inv : Inventory) (target : String) : Nat :=
  let additive := 10
    + (if inv.charge then 20 else 0)
    + (if inv.ice then 20 else 0)
    + (if inv.spazer then 30 else 0)
    + (if inv.wave then 20 else 0)
    + (if inv.plasma then 25 else 0)
    + (if inv.screw then 50 else 0)
    + (if inv.speed then 20 else 0)
    + (if inv.bomb then 50 else 0)
    + 10 * inv.missiles + 20 * inv.supers + 30 * inv.power_bombs
  let afterGrapple :=
    if target = "draygon" ∧ inv.grapple then additive * 3 else additive
  let afterVaria := if inv.varia then afterGrapple * 5 / 4 else afterGrapple
  if inv.gravity then afterVaria * 3 / 2 else afterVaria

/-- Turning the source's sequential `base_damage += bonus if held` updates
into a sum of conditional bonuses. -/
theorem ite_add_shift (b : Bool) (d k : Nat) :
    (if b then d + k else d) = d + (if b then k else 0) := by
  cases b <;> simp

/-- Claim C1. `get_player_damage` computes exactly the formula of the claim:
additive bonuses (charge +20, ice +20, spazer +30, wave +20, plasma +25,
screw +50, speed +20, bomb +50, 10 per missile, 20 per super, 30 per power
bomb, over base 10), then ×3 for draygon with grapple, then Varia ×1.25 and
Gravity ×1.5 truncated, applied last and compounding. -/
theorem claim1_get_player_damage_formula (inv : Inventory) (target : String) :
    get_player_damage inv target = playerDamageClaim inv target := by
  unfold get_player_damage playerDamageClaim
  simp only [ite_add_shift]
  split <;> split <;> split <;> omega

/-- The `GRID_SIZE` constant. -/
def GRID_SIZE : Nat := 10

/-- The mutable session state of the `Game` class that the core logic reads
and writes (rendering fields, sprite manager and the combat log omitted).
The grid is stored row major: tile `(x, y)` lives at index
`y * GRID_SIZE + x`, matching `self.grid[y][x]`. -/
structure Game where
  grid : List Tile
  inventory : Inventory
  revealed_tiles : List (Nat × Nat)
  player_energy : Int
  max_energy : Int
  score : Nat
  boss_turn_timer : Nat
  player_attack_timer : Nat
  game_over : Bool
  victory : Bool
  boss_defeats : List (String × Nat)
deriving DecidableEq, Repr

/-- The `self.boss_defeats` dict as initialised by `initialize_game` / `reset_game`. -/
def initial_boss_defeats : List (String × Nat) :=
  [("bomb_torizo", 0), ("spore_spawn", 0), ("kraid", 0), ("crocomire", 0),
   ("phantoon", 0), ("botwoon", 0), ("draygon", 0), ("gold_torizo", 0),
   ("ridley", 0), ("mother_brain_1", 0), ("ceres_station", 0)]

/-- Incrementing `self.boss_defeats[id] += 1`: assoc-list update; `none` models the
`KeyError` raised when `id` is not a tracked boss. -/
def defeats_incr : List (String × Nat) → String → Option (List (String × Nat))
  | [], _ => none
  | (k, v) :: rest, id =>
    if k = id then some ((k, v + 1) :: rest)
    else (defeats_incr rest id).map fun r => (k, v) :: r

/-- From `Game.is_fight_active`: any boss or enemy tile that is face-up with
positive health. -/
def is_fight_active (s : Game) : Bool :=
  s.grid.any fun t =>
    decide ((t.tile_type = TileType.boss ∨ t.tile_type = TileType.enemy) ∧
      t.state = TileState.face_up ∧ 0 < t.health)

/-- Computing `abs (a - b)` on `Nat`, the Manhattan-distance component of
`can_click_tile` (Python computes `abs(x - rx)` on ints; grid coordinates
are non-negative). -/
def nat_abs_diff (a b : Nat) : Nat := (a - b) + (b - a)

/-- From `Game.can_click_tile`: true when no tile has been revealed yet, or when
`(x, y)` is at Manhattan distance exactly 1 from some revealed position. -/
def can_click_tile (x y : Nat) (revealed : List (Nat × Nat)) : Bool :=
  revealed.isEmpty ||
    revealed.any fun r => nat_abs_diff x r.1 + nat_abs_diff y r.2 = 1

/-- In `place_items_in_areas` the `samus_ship` boss tile is set `FACE_UP`
and its position appended to `self.revealed_tiles`; `__init__` and
`reset_game` start from an empty list and no other append runs before play,
so a fresh session's reveal list is exactly the ship position. -/
def initial_revealed_tiles (shipPos : Nat × Nat) : List (Nat × Nat) :=
  [shipPos]

/-- The Norfair heat check at the end of `handle_click` (also inlined per
tile in `auto_grab_adjacent_items`): without the Varia suit, 25 energy is
subtracted (no clamping) and game over is declared at energy ≤ 0. -/
def norfair_check (tile : Tile) (s : Game) : Game :=
  if tile.area = AreaType.norfair ∧ s.inventory.varia = false then
    if s.player_energy - 25 ≤ 0 then
      { s with player_energy := s.player_energy - 25, game_over := true }
    else { s with player_energy := s.player_energy - 25 }
  else s

/-- The score award plus the energy-tank special case, as duplicated in
`handle_click` and `auto_grab_adjacent_items`: add the item's score, and for
an energy tank raise max energy by 100 and fully heal. -/
def add_item_score_and_tank (item_id : String) (s : Game) : Game :=
  let s := { s with score := s.score + item_scores_get item_id }
  if item_id = "energy_tank" then
    let me := s.max_energy + 100
    { s with max_energy := me, player_energy := me }
  else s

/-- One iteration of the `auto_grab_adjacent_items` loop body at diagonal
position `p` (Python ints, may be off-grid): bounds check, then flip and
collect a face-down item tile unless it is Maridia-locked.  Note that the
score is added even when a unique item is already owned (the owned case only
skips the inventory write), and the Norfair heat check runs per grabbed
tile. -/
def auto_grab_step (s : Game) (p : Int × Int) : Option Game :=
  if 0 ≤ p.1 ∧ p.1 < (GRID_SIZE : Int) ∧ 0 ≤ p.2 ∧ p.2 < (GRID_SIZE : Int) then
    let idx := (p.2 * (GRID_SIZE : Int) + p.1).toNat
    match s.grid.get? idx with
    | none => some s
    | some tile =>
      if tile.state = TileState.face_down ∧ tile.tile_type = TileType.item then
        if tile.area = AreaType.maridia ∧ s.inventory.gravity = false then some s
        else
          let s1 := { s with
            grid := s.grid.set idx { tile with state := TileState.face_up },
            revealed_tiles := s.revealed_tiles ++ [(p.1.toNat, p.2.toNat)] }
          match s1.inventory.lookup tile.item_id with
          | none => none
          | some (InvEntry.boolean b) =>
            let s2 := if b then s1
              else { s1 with
                inventory := s1.inventory.store tile.item_id (InvEntry.boolean true) }
            some (norfair_check tile (add_item_score_and_tank tile.item_id s2))
          | some (InvEntry.counter n) =>
            let s2 := { s1 with
              inventory := s1.inventory.store tile.item_id (InvEntry.counter (n + 1)) }
            some (norfair_check tile (add_item_score_and_tank tile.item_id s2))
      else some s
  else some s

/-- The `for diag_pos in diagonal_positions` loop of
`auto_grab_adjacent_items`. -/
def auto_grab_go : List (Int × Int) → Game → Option Game
  | [], s => some s
  | p :: ps, s => (auto_grab_step s p).bind (auto_grab_go ps)

/-- The `diagonal_positions` list of `auto_grab_adjacent_items`. -/
def diagonal_positions (x y : Nat) : List (Int × Int) :=
  [((x : Int) - 1, (y : Int) - 1), ((x : Int) + 1, (y : Int) - 1),
   ((x : Int) - 1, (y : Int) + 1), ((x : Int) + 1, (y : Int) + 1)]

/-- From `Game.auto_grab_adjacent_items`. -/
def auto_grab_adjacent_items (x y : Nat) (s : Game) : Option Game :=
  auto_grab_go (diagonal_positions x y) s

/-- The tail of the item branch of `handle_click` after the inventory write:
score and energy-tank effects, the X-ray auto grab when the (possibly just
updated) inventory holds the scope, then the Norfair heat check on the
clicked tile. -/
def finish_item_pickup (tile : Tile) (gx gy : Nat) (s : Game) : Option Game :=
  let s3 := add_item_score_and_tank tile.item_id s
  (if s3.inventory.xray = true then auto_grab_adjacent_items gx gy s3
   else some s3).map (norfair_check tile)

/-- From `Game.handle_click`, taking the already-translated grid coordinates
(the source converts the pixel position and rejects clicks outside the
grid; that bounds gate is the `gx < GRID_SIZE ∧ gy < GRID_SIZE` guard).
Every early return of the source returns the unchanged state here; `none`
models an uncaught `KeyError` on an item id outside the inventory key set,
which no tile produced by `populate_grid` can trigger. -/
def handle_click (gx gy : Nat) (s : Game) : Option Game :=
  if is_fight_active s then some s
  else if gx < GRID_SIZE ∧ gy < GRID_SIZE then
    match s.grid.get? (gy * GRID_SIZE + gx) with
    | none => some s
    | some tile =>
      if tile.state = TileState.face_down ∧
          can_click_tile gx gy s.revealed_tiles = true then
        if tile.area = AreaType.maridia ∧ s.inventory.gravity = false then
          some s
        else
          let s1 := { s with
            grid := s.grid.set (gy * GRID_SIZE + gx)
              { tile with state := TileState.face_up },
            revealed_tiles := s.revealed_tiles ++ [(gx, gy)] }
          match tile.tile_type with
          | TileType.item =>
            match s1.inventory.lookup tile.item_id with
            | none => none
            | some (InvEntry.boolean true) => some s1
            | some (InvEntry.boolean false) =>
              finish_item_pickup tile gx gy
                { s1 with
                  inventory := s1.inventory.store tile.item_id
                    (InvEntry.boolean true) }
            | some (InvEntry.counter n) =>
              finish_item_pickup tile gx gy
                { s1 with
                  inventory := s1.inventory.store tile.item_id
                    (InvEntry.counter (n + 1)) }
          | _ => some (norfair_check tile s1)
      else some s
  else some s

/-- The row-major loop of `Game.process_enemy_turns` over the remaining
tiles, threading `(grid so far, player_energy, game_over)`.  A frozen enemy
skips its turn and unfreezes; otherwise the per-id damage is subtracted
(without clamping) and, at energy ≤ 0, game over is set and the method
returns immediately, leaving the rest of the grid unvisited. -/
def petAux : List Tile → Int → Bool → (List Tile × Int × Bool)
  | [], e, go => ([], e, go)
  | t :: rest, e, go =>
    if t.tile_type = TileType.enemy ∧ t.state = TileState.face_up ∧
        0 < t.health then
      if t.frozen then
        let r := petAux rest e go
        ({ t with frozen := false } :: r.1, r.2)
      else
        let e1 := e - (enemy_damage_get t.item_id : Int)
        if e1 ≤ 0 then (t :: rest, e1, true)
        else
          let r := petAux rest e1 go
          (t :: r.1, r.2)
    else
      let r := petAux rest e go
      (t :: r.1, r.2)

/-- From `Game.process_enemy_turns`. -/
def process_enemy_turns (s : Game) : Game :=
  let r := petAux s.grid s.player_energy s.game_over
  { s with grid := r.1, player_energy := r.2.1, game_over := r.2.2 }

/-- The row-major loop of `Game.process_boss_turns`.  Unlike the enemy loop
it never returns early: at energy ≤ 0 it clamps energy to 0, sets game over
and keeps iterating over the remaining bosses. -/
def pbtAux : List Tile → Int → Bool → (List Tile × Int × Bool)
  | [], e, go => ([], e, go)
  | t :: rest, e, go =>
    if t.tile_type = TileType.boss ∧ t.state = TileState.face_up ∧
        0 < t.health then
      if t.frozen then
        let r := pbtAux rest e go
        ({ t with frozen := false } :: r.1, r.2)
      else
        let e1 := e - (get_boss_damage t.item_id : Int)
        if e1 ≤ 0 then
          let r := pbtAux rest 0 true
          (t :: r.1, r.2)
        else
          let r := pbtAux rest e1 go
          (t :: r.1, r.2)
    else
      let r := pbtAux rest e go
      (t :: r.1, r.2)

/-- From `Game.process_boss_turns`. -/
def process_boss_turns (s : Game) : Game :=
  let r := pbtAux s.grid s.player_energy s.game_over
  { s with grid := r.1, player_energy := r.2.1, game_over := r.2.2 }

/-- The Ceres Station defeat bonus inside `process_player_attacks`: every
boss tile with id `ridley` and positive health has its health set to
`max(0, health - 1000)`.  Its reveal state is left untouched. -/
def reduce_ridley (g : List Tile) : List Tile :=
  g.map fun t =>
    if t.tile_type = TileType.boss ∧ t.item_id = "ridley" ∧ 0 < t.health then
      { t with health := max 0 (t.health - 1000) }
    else t

/-- The row-major loop of `Game.process_player_attacks`.  `done` holds the
already-visited prefix of the grid (the Ceres special case mutates already
visited tiles through `reduce_ridley`, so the whole grid is threaded).
`oracle k` is the outcome of the `k`-th `random.random() < 0.10` freeze
roll; the roll is consumed only when the source actually calls
`random.random()` (ice beam held and the target survived).  The `fuel`
argument makes the recursion structural; the wrapper passes the grid length
and `reduce_ridley` preserves length, so fuel never runs out.  Result:
`(grid, score, boss_defeats, game_over, victory)`; `none` models the
`KeyError` of `self.boss_defeats[id] += 1` for an untracked boss id. -/
def ppaAux (inv : Inventory) (oracle : Nat → Bool) :
    Nat → List Tile → List Tile → Nat → Nat → List (String × Nat) →
    Bool → Bool → Option (List Tile × Nat × List (String × Nat) × Bool × Bool)
  | _, done, [], _, score, d, go, vic => some (done, score, d, go, vic)
  | 0, done, rest, _, score, d, go, vic => some (done ++ rest, score, d, go, vic)
  | fuel + 1, done, t :: rest, k, score, d, go, vic =>
    if (t.tile_type = TileType.boss ∨ t.tile_type = TileType.enemy) ∧
        t.state = TileState.face_up ∧ 0 < t.health then
      let dmg : Int := (get_player_damage inv t.item_id : Nat)
      let h1 : Int := t.health - dmg
      let doF : Bool := inv.ice && decide (0 < h1)
      let k1 := if doF then k + 1 else k
      let fr := if doF && oracle k then true else t.frozen
      if 0 < h1 then
        ppaAux inv oracle fuel (done ++ [{ t with health := h1, frozen := fr }])
          rest k1 score d go vic
      else
        let t1 :=
          { t with health := 0, frozen := fr, state := TileState.destroyed }
        if t.tile_type = TileType.boss then
          match defeats_incr d t.item_id with
          | none => none
          | some d1 =>
            if t.item_id = "ceres_station" then
              ppaAux inv oracle fuel (reduce_ridley (done ++ [t1]))
                (reduce_ridley rest) k1 (score + 600) d1 go vic
            else if t.item_id = "mother_brain_1" then
              some (done ++ t1 :: rest, score, d1, true, true)
            else
              ppaAux inv oracle fuel (done ++ [t1]) rest k1
                (score + boss_scores_get t.item_id) d1 go vic
        else
          ppaAux inv oracle fuel (done ++ [t1]) rest k1
            (score + enemy_scores_get t.item_id) d go vic
    else
      ppaAux inv oracle fuel (done ++ [t]) rest k score d go vic

/-- From `Game.process_player_attacks`. -/
def process_player_attacks (oracle : Nat → Bool) (s : Game) : Option Game :=
  (ppaAux s.inventory oracle s.grid.length [] s.grid 0 s.score s.boss_defeats
      s.game_over s.victory).map fun r =>
    { s with grid := r.1, score := r.2.1, boss_defeats := r.2.2.1, game_over := r.2.2.2.1, victory := r.2.2.2.2 }

/-- From `Game.update`, one tick.  `flip` is the outcome of the per-tick
`random.random() < self.get_attack_first_chance()` coin flip (computed every
tick, fire or not); `oracle` feeds the ice-beam freeze rolls.  When the game
is over the method returns immediately.  Otherwise max energy is recomputed
from the energy tanks, the boss/enemy timer advances and fires at 60 (with
the first-strike path when the flip succeeded and a fight is active), and
the player cadence runs only when the flip failed: its timer advances and a
player attack fires once it reaches 30. -/
def update (flip : Bool) (oracle : Nat → Bool) (s : Game) : Option Game :=
  if s.game_over then some s
  else
    let s1 := { s with
      max_energy := 99 + (s.inventory.energy_tank : Int) * 100,
      boss_turn_timer := s.boss_turn_timer + 1 }
    let afterBoss : Option Game :=
      if 60 ≤ s1.boss_turn_timer then
        let s2 := { s1 with boss_turn_timer := 0 }
        if flip = true ∧ is_fight_active s2 = true then
          (process_player_attacks oracle s2).map fun t =>
            process_boss_turns (process_enemy_turns t)
        else some (process_boss_turns (process_enemy_turns s2))
      else some s1
    afterBoss.bind fun s3 =>
      if flip = false then
        if 30 ≤ s3.player_attack_timer + 1 then
          process_player_attacks oracle { s3 with player_attack_timer := 0 }
        else some { s3 with player_attack_timer := s3.player_attack_timer + 1 }
      else some s3

/-! ## Concrete states for the counterexamples and witnesses -/

/-- The empty starting inventory from `initialize_game`. -/
def inv0 : Inventory :=
  { missiles := 0, supers := 0, power_bombs := 0, energy_tank := 0,
    morph := false, bomb := false, hijump := false, speed := false,
    grapple := false, xray := false, spring := false, space := false,
    screw := false, charge := false, spazer := false, wave := false,
    ice := false, plasma := false, varia := false, gravity := false }

/-- A face-down empty Crateria tile. -/
def emptyTile : Tile :=
  { x := 0, y := 0, tile_type := TileType.empty, item_id := "",
    area := AreaType.crateria, state := TileState.face_down, health := 0,
    max_health := 0, frozen := false }

/-- A baseline fresh-session state (empty grid slots filled per scenario). -/
def game0 : Game :=
  { grid := [], inventory := inv0, revealed_tiles := [], player_energy := 99,
    max_energy := 99, score := 0, boss_turn_timer := 0,
    player_attack_timer := 0, game_over := false, victory := false,
    boss_defeats := initial_boss_defeats }

/-- A revealed geemer (enemy damage 3) in combat. -/
def geemerTile : Tile :=
  { emptyTile with
    tile_type := TileType.enemy
    item_id := "geemer"
    state := TileState.face_up
    health := 50
    max_health := 50 }

/-- Player at 2 energy facing a revealed geemer. -/
def cx2 : Game := { game0 with grid := [geemerTile], player_energy := 2 }

/-- A revealed Mother Brain (boss damage 30). -/
def motherBrainTile : Tile :=
  { emptyTile with
    tile_type := TileType.boss
    item_id := "mother_brain_1"
    state := TileState.face_up
    health := 8000
    max_health := 8000 }

/-- Player at 25 energy facing a revealed Mother Brain (30-damage boss). -/
def scen2 : Game :=
  { game0 with grid := [motherBrainTile], player_energy := 25 }

/-- A revealed enemy whose id is in no damage table. -/
def cx6 : Game :=
  { game0 with
    grid := [{ geemerTile with item_id := "metroid" }], player_energy := 100 }

/-- A revealed Ceres Station at 10 health. -/
def ceresTile : Tile :=
  { emptyTile with
    tile_type := TileType.boss
    item_id := "ceres_station"
    state := TileState.face_up
    health := 10
    max_health := 1000 }

/-- A revealed Ridley at exactly 1000 health. -/
def ridleyTile : Tile :=
  { emptyTile with
    tile_type := TileType.boss
    item_id := "ridley"
    state := TileState.face_up
    health := 1000
    max_health := 6000 }

/-- A revealed Ceres Station at 10 health next to a revealed Ridley at 1000
health: the base 10 player damage destroys Ceres, whose special case drains
Ridley to 0 health without destroying him. -/
def cx4 : Game :=
  { game0 with grid := [ceresTile, ridleyTile] }

/-- A lone revealed geemer at full health (survives the player attack). -/
def wit4 : Game := { game0 with grid := [geemerTile] }

/-- A face-down missiles pickup. -/
def missilesTile : Tile :=
  { emptyTile with tile_type := TileType.item, item_id := "missiles" }

/-- A face-down Morph Ball pickup. -/
def morphTile : Tile :=
  { emptyTile with tile_type := TileType.item, item_id := "morph" }

/-- Click target for C3: a missiles tile at `(1, 1)` with a `morph` tile on
the `(0, 0)` diagonal, while morph is already owned and the X-ray scope is
held. -/
def cx3 : Game :=
  { game0 with
    grid := ((List.replicate 100 emptyTile).set 11 missilesTile).set 0 morphTile
    inventory := { inv0 with morph := true, xray := true } }

/-- The already-owned Speed Booster sitting on a Norfair tile. -/
def norfairSpeedTile : Tile :=
  { emptyTile with
    tile_type := TileType.item
    item_id := "speed"
    area := AreaType.norfair }

/-- Click target for C7: a Norfair tile carrying the already-owned Speed
Booster, player without Varia at 99 energy. -/
def cx7 : Game :=
  { game0 with
    grid := (List.replicate 100 emptyTile).set 0 norfairSpeedTile
    inventory := { inv0 with speed := true } }

/-- Tick state for C8: morph held (so the first-strike chance is positive
and the coin flip can succeed), boss timer far from firing, player cadence
timer at 5. -/
def cx8 : Game :=
  { game0 with
    inventory := { inv0 with morph := true }
    player_attack_timer := 5 }

/-! ## Claim C5: reveal legality -/

/-- Claim C5, counterexample. A fresh session is not unconstrained: the ship
tile is already in the reveal list, so with the ship at `(0, 0)` the
position `(9, 9)` fails the reveal-legality check before the player has
revealed anything. -/
theorem claim5_counterexample :
    initial_revealed_tiles (0, 0) ≠ [] ∧
      can_click_tile 9 9 (initial_revealed_tiles (0, 0)) = false := by
  decide

/-- Claim C5, amended. `can_click_tile` is true exactly when the reveal list
is empty or the position is at Manhattan distance 1 from some revealed
cell; and in a fresh session — whose reveal list already holds the ship
position — it is true exactly at distance 1 from the ship, so the first
player reveal is constrained, not free. -/
theorem claim5_can_click_characterization :
    (∀ (x y : Nat) (L : List (Nat × Nat)),
      can_click_tile x y L = true ↔
        (L = [] ∨ ∃ p ∈ L, nat_abs_diff x p.1 + nat_abs_diff y p.2 = 1))
    ∧ (∀ (x y : Nat) (sp : Nat × Nat),
      can_click_tile x y (initial_revealed_tiles sp) = true ↔
        nat_abs_diff x sp.1 + nat_abs_diff y sp.2 = 1) := by
  constructor
  · intro x y L
    simp [can_click_tile, List.isEmpty_iff]
  · intro x y sp
    simp [can_click_tile, initial_revealed_tiles]

/-! ## Claim C2: energy clamping on damage -/

/-- Along the boss-turn loop the energy result is non-negative whenever the
incoming energy is: every boss hit either leaves positive energy or clamps
it to exactly 0. -/
theorem pbtAux_energy_nonneg (tiles : List Tile) (e : Int) (go : Bool)
    (he : 0 ≤ e) : 0 ≤ (pbtAux tiles e go).2.1 := by
  induction tiles generalizing e go with
  | nil => simpa [pbtAux] using he
  | cons t rest ih =>
    simp only [pbtAux]
    split
    · split
      · simpa using ih e go he
      · split
        · simpa using ih 0 true le_rfl
        · next h1 =>
          simpa using ih _ go (by omega)
    · simpa using ih e go he

/-- Claim C2, counterexample. Enemy attacks do not clamp: a player at 2
energy hit by a geemer (3 damage) in `process_enemy_turns` ends at an
observable energy of −1 (with game over set), contradicting the claim that
every damage application clamps energy to 0. -/
theorem claim2_counterexample :
    (process_enemy_turns cx2).player_energy = -1 ∧
      (process_enemy_turns cx2).game_over = true ∧
      ¬ 0 ≤ (process_enemy_turns cx2).player_energy := by
  decide

/-- Claim C2, amended. Only the boss-attack path clamps: `process_boss_turns`
never drives a non-negative energy below 0 (it clamps to exactly 0 and sets
game over), and in particular the claimed scenario holds — a player at 25
energy taking Mother Brain's 30-damage hit ends at exactly 0 energy with
game over set.  Enemy attacks and Norfair heat damage instead subtract
without clamping, so energy below 0 is observable on those paths. -/
theorem claim2_boss_damage_clamps :
    (∀ s : Game, 0 ≤ s.player_energy →
      0 ≤ (process_boss_turns s).player_energy)
    ∧ (process_boss_turns scen2).player_energy = 0
    ∧ (process_boss_turns scen2).game_over = true := by
  refine ⟨fun s hs => ?_, by decide, by decide⟩
  simpa [process_boss_turns] using
    pbtAux_energy_nonneg s.grid s.player_energy s.game_over hs

/-- Witness for C2: the scenario state instantiates the clamped theorem. -/
theorem claim2_witness :
    0 ≤ scen2.player_energy ∧ 0 ≤ (process_boss_turns scen2).player_energy :=
  ⟨by decide, claim2_boss_damage_clamps.1 scen2 (by decide)⟩

/-! ## Claim C6: per-id damage deduction and defaults -/

/-- Claim C6, counterexample. An enemy with an id absent from the enemy
damage table deducts 3 energy, not the claimed 10: at 100 energy the result
is 97. -/
theorem claim6_counterexample :
    (process_enemy_turns cx6).player_energy = 97 ∧ (97 : Int) ≠ 100 - 10 := by
  decide

/-- Claim C6, amended. On a non-frozen actor turn the deduction is the
per-id table value; an id absent from the enemy table defaults to 3 (not
10), while an id absent from the boss table defaults to 10.  A lone enemy
deducts exactly its table damage; a lone boss deducts its table damage
clamped at zero energy. -/
theorem claim6_damage_per_id :
    (∀ id : String, id ∉ ["geemer", "skree", "side_hopper", "ciser"] →
      enemy_damage_get id = 3)
    ∧ (∀ id : String,
      id ∉ ["bomb_torizo", "spore_spawn", "kraid", "crocomire", "phantoon",
        "botwoon", "draygon", "gold_torizo", "ridley", "mother_brain_1",
        "mother_brain_2", "samus_ship", "ceres_station", "golden_four"] →
      get_boss_damage id = 10)
    ∧ (∀ (t : Tile) (e : Int) (go : Bool), t.tile_type = TileType.enemy →
      t.state = TileState.face_up → 0 < t.health → t.frozen = false →
      (petAux [t] e go).2.1 = e - enemy_damage_get t.item_id)
    ∧ (∀ (t : Tile) (e : Int) (go : Bool), t.tile_type = TileType.boss →
      t.state = TileState.face_up → 0 < t.health → t.frozen = false →
      (pbtAux [t] e go).2.1 = max 0 (e - get_boss_damage t.item_id)) := by
  refine ⟨fun id h => ?_, fun id h => ?_, fun t e go h1 h2 h3 h4 => ?_,
    fun t e go h1 h2 h3 h4 => ?_⟩
  · simp only [List.mem_cons, List.not_mem_nil, or_false, not_or] at h
    simp [enemy_damage_get, h.1, h.2.1, h.2.2.1, h.2.2.2]
  · simp only [List.mem_cons, List.not_mem_nil, or_false, not_or] at h
    obtain ⟨n1, n2, n3, n4, n5, n6, n7, n8, n9, n10, n11, n12, n13, n14⟩ := h
    simp [get_boss_damage, n1, n2, n3, n4, n5, n6, n7, n8, n9, n10, n11,
      n12, n13, n14]
  · simp only [petAux, h1, h2, h3, h4, and_self, if_true, if_false,
      ite_false, Bool.false_eq_true]
    split <;> simp [petAux]
  · simp only [pbtAux, h1, h2, h3, h4, and_self, if_true, if_false,
      ite_false, Bool.false_eq_true]
    split
    · next h5 => simp [pbtAux]; omega
    · next h5 => simp [pbtAux]; omega

/-- Witness for C6: concrete deductions for known and unknown ids. -/
theorem claim6_witness :
    enemy_damage_get "metroid" = 3 ∧ get_boss_damage "metroid" = 10 ∧
      (petAux [geemerTile] 100 false).2.1 = 100 - enemy_damage_get "geemer" ∧
      (pbtAux [motherBrainTile] 25 false).2.1 =
        max 0 (25 - get_boss_damage "mother_brain_1") :=
  ⟨claim6_damage_per_id.1 "metroid" (by decide),
   claim6_damage_per_id.2.1 "metroid" (by decide),
   claim6_damage_per_id.2.2.1 geemerTile 100 false (by decide) (by decide)
     (by decide) (by decide),
   claim6_damage_per_id.2.2.2 motherBrainTile 25 false (by decide) (by decide)
     (by decide) (by decide)⟩

/-! ## Claim C9: illegal reveals are rejected without state change -/

/-- Claim C9. Every illegal reveal attempt — while a fight is active, on a
tile that is not face down, on a position not adjacent to the reveal set, or
on a Maridia tile without the Gravity Suit — returns the state completely
unchanged (`some s`: in particular no exception is raised; the combat log is
the only thing the source touches on these paths and it is
presentation-only). -/
theorem claim9_illegal_reveal_noop (s : Game) (gx gy : Nat)
    (h : is_fight_active s = true
      ∨ (∃ tile, s.grid.get? (gy * GRID_SIZE + gx) = some tile ∧
          (tile.state ≠ TileState.face_down
            ∨ can_click_tile gx gy s.revealed_tiles = false
            ∨ (tile.area = AreaType.maridia ∧ s.inventory.gravity = false)))) :
    handle_click gx gy s = some s := by
  unfold handle_click
  rcases h with hf | ⟨tile, ht, hcase⟩
  · simp [hf]
  · rw [List.get?_eq_getElem?] at ht
    rcases hcase with hs | hc | hm
    · simp [ht, hs]
    · simp [ht, hc]
    · simp [ht, hm.1, hm.2]

/-- Witness for C9: clicking anywhere while the geemer fight is active
leaves the state untouched. -/
theorem claim9_witness : handle_click 0 0 cx2 = some cx2 :=
  claim9_illegal_reveal_noop cx2 0 0 (Or.inl (by decide))

/-! ## Shared lemmas about the pickup plumbing -/

/-- A boolean inventory entry never belongs to the `energy_tank` key (that
key stores a counter), so a unique-item pickup can never trigger the
energy-tank heal. -/
theorem lookup_boolean_ne_tank {inv : Inventory} {id : String} {b : Bool}
    (h : inv.lookup id = some (InvEntry.boolean b)) : id ≠ "energy_tank" := by
  intro he
  subst he
  simp [Inventory.lookup] at h

/-- For a non-tank item the score/tank step only adds the item's score. -/
theorem add_item_score_and_tank_eq (id : String) (hne : id ≠ "energy_tank")
    (s : Game) :
    add_item_score_and_tank id s =
      { s with score := s.score + item_scores_get id } := by
  unfold add_item_score_and_tank
  simp [hne]

/-- On a Norfair tile without Varia the heat check subtracts exactly 25
energy (no clamping) and sets game over exactly when the result is ≤ 0. -/
theorem norfair_check_eq (tile : Tile) (s : Game)
    (ha : tile.area = AreaType.norfair) (hv : s.inventory.varia = false) :
    norfair_check tile s =
      { s with
        player_energy := s.player_energy - 25
        game_over := if s.player_energy - 25 ≤ 0 then true else s.game_over } := by
  unfold norfair_check
  rw [if_pos ⟨ha, hv⟩]
  split <;> simp_all

/-- The heat check never touches inventory or score. -/
theorem norfair_check_inv_score (tile : Tile) (s : Game) :
    (norfair_check tile s).inventory = s.inventory ∧
      (norfair_check tile s).score = s.score := by
  unfold norfair_check
  split
  · split <;> simp
  · simp

/-- The reveal plus "Already have ...!" early return of `handle_click`: on
a face-down, adjacency-legal, non-Maridia-locked item tile whose unique
item is already owned, the click flips the tile and records the reveal and
changes nothing else — no inventory write, no score, no energy change (in
particular the Norfair heat check is skipped). -/
theorem handle_click_owned_item (s : Game) (gx gy : Nat) (tile : Tile)
    (hf : is_fight_active s = false) (hx : gx < GRID_SIZE)
    (hy : gy < GRID_SIZE)
    (ht : s.grid.get? (gy * GRID_SIZE + gx) = some tile)
    (hd : tile.state = TileState.face_down)
    (hc : can_click_tile gx gy s.revealed_tiles = true)
    (hm : ¬(tile.area = AreaType.maridia ∧ s.inventory.gravity = false))
    (hi : tile.tile_type = TileType.item)
    (ho : s.inventory.lookup tile.item_id = some (InvEntry.boolean true)) :
    handle_click gx gy s = some
      { s with
        grid := s.grid.set (gy * GRID_SIZE + gx)
          { tile with state := TileState.face_up }
        revealed_tiles := s.revealed_tiles ++ [(gx, gy)] } := by
  rw [List.get?_eq_getElem?] at ht
  unfold handle_click
  simp [hf, hx, hy, ht, hd, hc, hm, hi, ho]

/-! ## Claim C3: idempotence of unique-item pickups -/

/-- Claim C3, counterexample. The X-ray auto-grab path is not score-idempotent:
clicking the missiles tile of `cx3` (morph already owned, X-ray held)
auto-grabs the diagonal morph tile and adds morph's 100 points again —
total score 110 instead of the 10 the claim predicts — although the
inventory entry itself stays `true`. -/
theorem claim3_counterexample :
    (handle_click 1 1 cx3).map
        (fun t => (t.score, t.inventory.morph, t.inventory.missiles)) =
      some (110, true, 1) ∧ (110 : Nat) ≠ 10 := by
  constructor
  · rfl
  · decide

/-- Claim C3, amended. Re-collecting an already-owned unique item never
changes the inventory, and on the direct click path it adds no score either
(the "Already have" early return leaves everything but the tile flip and
the reveal list untouched); but on the X-ray diagonal auto-grab path the
item's score IS added a second time even though the inventory is left
unchanged. -/
theorem claim3_owned_pickup :
    (∀ (s : Game) (gx gy : Nat) (tile : Tile),
      is_fight_active s = false → gx < GRID_SIZE → gy < GRID_SIZE →
      s.grid.get? (gy * GRID_SIZE + gx) = some tile →
      tile.state = TileState.face_down →
      can_click_tile gx gy s.revealed_tiles = true →
      ¬(tile.area = AreaType.maridia ∧ s.inventory.gravity = false) →
      tile.tile_type = TileType.item →
      s.inventory.lookup tile.item_id = some (InvEntry.boolean true) →
      handle_click gx gy s = some
        { s with
          grid := s.grid.set (gy * GRID_SIZE + gx)
            { tile with state := TileState.face_up }
          revealed_tiles := s.revealed_tiles ++ [(gx, gy)] })
    ∧ (∀ (s : Game) (p : Int × Int) (tile : Tile),
      0 ≤ p.1 ∧ p.1 < (GRID_SIZE : Int) ∧ 0 ≤ p.2 ∧ p.2 < (GRID_SIZE : Int) →
      s.grid.get? (p.2 * (GRID_SIZE : Int) + p.1).toNat = some tile →
      tile.state = TileState.face_down →
      tile.tile_type = TileType.item →
      ¬(tile.area = AreaType.maridia ∧ s.inventory.gravity = false) →
      s.inventory.lookup tile.item_id = some (InvEntry.boolean true) →
      ∃ s', auto_grab_step s p = some s' ∧ s'.inventory = s.inventory ∧
        s'.score = s.score + item_scores_get tile.item_id) := by
  constructor
  · exact fun s gx gy tile hf hx hy ht hd hc hm hi ho =>
      handle_click_owned_item s gx gy tile hf hx hy ht hd hc hm hi ho
  · intro s p tile hb ht hd hi hm ho
    unfold auto_grab_step
    rw [if_pos hb]
    dsimp only
    rw [ht]
    simp only [hd, hi, and_self, ite_true, hm, ite_false, ho, if_true]
    refine ⟨_, rfl, ?_, ?_⟩
    · rw [(norfair_check_inv_score _ _).1,
        add_item_score_and_tank_eq _ (lookup_boolean_ne_tank ho)]
    · rw [(norfair_check_inv_score _ _).2,
        add_item_score_and_tank_eq _ (lookup_boolean_ne_tank ho)]

/-- Witness for C3: the click path on the owned Norfair speed tile of
`cx7`, and the auto-grab step on the owned morph tile of `cx3`. -/
theorem claim3_witness :
    handle_click 0 0 cx7 = some
      { cx7 with
        grid := cx7.grid.set 0 { norfairSpeedTile with state := TileState.face_up }
        revealed_tiles := [(0, 0)] }
    ∧ ∃ s', auto_grab_step cx3 (0, 0) = some s' ∧
        s'.inventory = cx3.inventory ∧
        s'.score = cx3.score + item_scores_get "morph" := by
  constructor
  · exact claim3_owned_pickup.1 cx7 0 0 norfairSpeedTile (by decide) (by decide)
      (by decide) (by rfl) (by decide) (by decide) (by decide) (by decide)
      (by decide)
  · exact claim3_owned_pickup.2 cx3 (0, 0) morphTile (by decide) (by rfl)
      (by decide) (by decide) (by decide) (by decide)

/-! ## Claim C7: Norfair heat damage on reveal -/

/-- A face-down fresh (not yet owned) Super Missiles pickup on a Norfair
tile. -/
def norfairSupersTile : Tile :=
  { emptyTile with
    tile_type := TileType.item
    item_id := "supers"
    area := AreaType.norfair }

/-- A face-down Varia Suit pickup (on a Crateria tile). -/
def variaTile : Tile :=
  { emptyTile with tile_type := TileType.item, item_id := "varia" }

/-- Click target demonstrating heat suppression by an auto-grab: a fresh
Norfair supers tile at `(1, 1)` with the Varia suit on the `(0, 0)`
diagonal, X-ray held and Varia not yet owned.  The heat check of the
clicked tile runs after the auto-grab and therefore sees Varia owned. -/
def cx7v : Game :=
  { game0 with
    grid := ((List.replicate 100 emptyTile).set 11 norfairSupersTile).set 0
      variaTile
    inventory := { inv0 with xray := true } }

/-- The state of `cx7v` right after the reveal of the supers tile and its
inventory write, i.e. the argument `handle_click` hands to
`finish_item_pickup`. -/
def wit7s0 : Game :=
  { cx7v with
    grid := cx7v.grid.set 11 { norfairSupersTile with state := TileState.face_up }
    revealed_tiles := [(1, 1)]
    inventory := cx7v.inventory.store "supers" (InvEntry.counter 1) }

/-- A face-down fresh missiles pickup on a Norfair tile. -/
def norfairMissilesTile : Tile :=
  { missilesTile with area := AreaType.norfair }

/-- Reveal target: the fresh Norfair missiles tile at `(0, 0)`, no X-ray,
no Varia. -/
def cx7m : Game :=
  { game0 with
    grid := (List.replicate 100 emptyTile).set 0 norfairMissilesTile }

/-- On a Norfair tile the heat check subtracts 25 exactly when the state it
is handed lacks Varia, and sets game over exactly when that unclamped
result is ≤ 0. -/
theorem norfair_check_energy_go (t : Tile) (s : Game)
    (ha : t.area = AreaType.norfair) :
    (norfair_check t s).player_energy =
      (if s.inventory.varia = false then s.player_energy - 25
       else s.player_energy) ∧
    (norfair_check t s).game_over =
      (if s.inventory.varia = false then
        (if s.player_energy - 25 ≤ 0 then true else s.game_over)
       else s.game_over) := by
  unfold norfair_check
  rw [ha]
  by_cases hv : s.inventory.varia = false
  · simp only [hv, and_self, if_true, ite_true]
    split <;> simp_all
  · simp [hv]

/-- Claim C7, counterexample. Revealing the Norfair tile of `cx7` — an item
the player already owns — does not apply the 25-energy heat hit: energy
stays at 99 (the "Already have" early return precedes the heat check). -/
theorem claim7_counterexample :
    (handle_click 0 0 cx7).map Game.player_energy = some 99 ∧
      (99 : Int) ≠ 99 - 25 := by
  constructor
  · rfl
  · decide

/-- Claim C7, amended. The 25-energy Norfair heat hit on the clicked tile
is decided from the inventory as it stands after the reveal's own item
collection and X-ray auto-grabs.  Concretely, for a successful reveal of a
Norfair tile: a non-item reveal without Varia always takes the unclamped
25-hit and then evaluates defeat; a reveal landing on an already-owned
unique item takes no hit (the early return precedes the heat check); a
fresh item reveal routes through `finish_item_pickup`, whose result is
exactly the heat check applied to the post-collection/post-auto-grab state
— so a fresh consumable without X-ray takes the 25-hit, while a reveal
whose auto-grab just collected the Varia suit (state `cx7v`) takes none. -/
theorem claim7_norfair_heat :
    (∀ (s : Game) (gx gy : Nat) (tile : Tile),
      is_fight_active s = false → gx < GRID_SIZE → gy < GRID_SIZE →
      s.grid.get? (gy * GRID_SIZE + gx) = some tile →
      tile.state = TileState.face_down →
      can_click_tile gx gy s.revealed_tiles = true →
      tile.area = AreaType.norfair →
      ((tile.tile_type ≠ TileType.item → s.inventory.varia = false →
        ∃ s', handle_click gx gy s = some s' ∧
          s'.player_energy = s.player_energy - 25 ∧
          s'.game_over =
            (if s.player_energy - 25 ≤ 0 then true else s.game_over))
      ∧ (tile.tile_type = TileType.item →
          s.inventory.lookup tile.item_id = some (InvEntry.boolean true) →
          ∃ s', handle_click gx gy s = some s' ∧
            s'.player_energy = s.player_energy)
      ∧ (tile.tile_type = TileType.item →
          s.inventory.lookup tile.item_id = some (InvEntry.boolean false) →
          handle_click gx gy s = finish_item_pickup tile gx gy
            { s with
              grid := s.grid.set (gy * GRID_SIZE + gx)
                { tile with state := TileState.face_up }
              revealed_tiles := s.revealed_tiles ++ [(gx, gy)]
              inventory := s.inventory.store tile.item_id
                (InvEntry.boolean true) })
      ∧ (∀ n : Nat, tile.tile_type = TileType.item →
          s.inventory.lookup tile.item_id = some (InvEntry.counter n) →
          handle_click gx gy s = finish_item_pickup tile gx gy
            { s with
              grid := s.grid.set (gy * GRID_SIZE + gx)
                { tile with state := TileState.face_up }
              revealed_tiles := s.revealed_tiles ++ [(gx, gy)]
              inventory := s.inventory.store tile.item_id
                (InvEntry.counter (n + 1)) })
      ∧ (∀ n : Nat, tile.tile_type = TileType.item →
          s.inventory.lookup tile.item_id = some (InvEntry.counter n) →
          tile.item_id ≠ "energy_tank" → s.inventory.xray = false →
          s.inventory.varia = false →
          ∃ s', handle_click gx gy s = some s' ∧
            s'.player_energy = s.player_energy - 25 ∧
            s'.game_over =
              (if s.player_energy - 25 ≤ 0 then true else s.game_over))))
    ∧ (∀ (t : Tile) (x y : Nat) (s0 s1 : Game), t.area = AreaType.norfair →
        finish_item_pickup t x y s0 = some s1 →
        ∃ s3, s1 = norfair_check t s3 ∧
          s1.player_energy =
            (if s3.inventory.varia = false then s3.player_energy - 25
             else s3.player_energy) ∧
          s1.game_over =
            (if s3.inventory.varia = false then
              (if s3.player_energy - 25 ≤ 0 then true else s3.game_over)
             else s3.game_over))
    ∧ (handle_click 1 1 cx7v).map
        (fun t => (t.player_energy, t.inventory.varia)) = some (99, true) := by
  refine ⟨?_, ?_, ?_⟩
  · intro s gx gy tile hf hx hy ht hd hc ha
    have hm : ¬(tile.area = AreaType.maridia ∧ s.inventory.gravity = false) := by
      simp [ha]
    refine ⟨?_, ?_, ?_, ?_, ?_⟩
    · intro hni hv
      unfold handle_click
      rw [ht]
      cases hty : tile.tile_type
      case item => exact absurd hty hni
      all_goals
        simp only [hf, Bool.false_eq_true, if_false, ite_false, hx, hy,
          and_self, if_true, ite_true, hd, hc, and_true, hm, hty]
        refine ⟨_, rfl, ?_, ?_⟩ <;>
          rw [norfair_check_eq tile _ ha (by simpa using hv)]
    · intro hi ho
      exact ⟨_, handle_click_owned_item s gx gy tile hf hx hy ht hd hc hm hi ho,
        rfl⟩
    · intro hi ho
      unfold handle_click
      rw [ht]
      simp only [hf, Bool.false_eq_true, if_false, ite_false, hx, hy, and_self,
        if_true, ite_true, hd, hc, and_true, hm, hi, ho]
    · intro n hi ho
      unfold handle_click
      rw [ht]
      simp only [hf, Bool.false_eq_true, if_false, ite_false, hx, hy, and_self,
        if_true, ite_true, hd, hc, and_true, hm, hi, ho]
    · intro n hi ho hne hxr hv
      have stx : ∀ (id : String) (m : Nat),
          (Inventory.store s.inventory id (InvEntry.counter m)).xray
            = s.inventory.xray := by
        intro id m
        simp only [Inventory.store]
        split_ifs <;> rfl
      have stv : ∀ (id : String) (m : Nat),
          (Inventory.store s.inventory id (InvEntry.counter m)).varia
            = s.inventory.varia := by
        intro id m
        simp only [Inventory.store]
        split_ifs <;> rfl
      unfold handle_click finish_item_pickup
      rw [ht]
      simp only [hf, Bool.false_eq_true, if_false, ite_false, hx, hy, and_self,
        if_true, ite_true, hd, hc, and_true, hm, hi, ho]
      rw [add_item_score_and_tank_eq tile.item_id hne]
      simp only [stx, hxr, Bool.false_eq_true, if_false, ite_false,
        Option.map_some']
      refine ⟨_, rfl, ?_, ?_⟩ <;>
        rw [norfair_check_eq tile _ ha (by simp [stv, hv])]
  · intro t x y s0 s1 ha h
    unfold finish_item_pickup at h
    dsimp only at h
    cases hX : (if (add_item_score_and_tank t.item_id s0).inventory.xray = true
        then auto_grab_adjacent_items x y (add_item_score_and_tank t.item_id s0)
        else some (add_item_score_and_tank t.item_id s0)) with
    | none =>
      rw [hX] at h
      simp at h
    | some s3 =>
      rw [hX] at h
      simp only [Option.map_some', Option.some_inj] at h
      refine ⟨s3, h.symm, ?_, ?_⟩
      · rw [← h]
        exact (norfair_check_energy_go t s3 ha).1
      · rw [← h]
        exact (norfair_check_energy_go t s3 ha).2
  · rfl

/-- A hidden geemer sitting on a Norfair tile. -/
def norfairGeemerHidden : Tile :=
  { geemerTile with state := TileState.face_down, area := AreaType.norfair }

/-- Reveal target: the hidden Norfair geemer at `(0, 0)`. -/
def wit7 : Game := { cx7 with grid := cx7.grid.set 0 norfairGeemerHidden }

/-- Witness for C7: a concrete Norfair enemy reveal taking the hit, the
owned-item skip, the post-auto-grab heat law at the Varia-suppression state
`cx7v`, and a fresh Norfair missiles reveal taking the hit. -/
theorem claim7_witness :
    (∃ s', handle_click 0 0 wit7 = some s' ∧
      s'.player_energy = 99 - 25 ∧ s'.game_over = false)
    ∧ (∃ s', handle_click 0 0 cx7 = some s' ∧ s'.player_energy = 99)
    ∧ (∃ s3, (handle_click 1 1 cx7v).getD cx7v =
        norfair_check norfairSupersTile s3)
    ∧ (∃ s', handle_click 0 0 cx7m = some s' ∧
        s'.player_energy = 99 - 25 ∧ s'.game_over = false) := by
  refine ⟨?_, ?_, ?_, ?_⟩
  · obtain ⟨s', h1, h2, h3⟩ :=
      (claim7_norfair_heat.1 wit7 0 0 norfairGeemerHidden
        (by decide) (by decide) (by decide) (by rfl) (by decide) (by decide)
        (by decide)).1 (by decide) (by decide)
    exact ⟨s', h1, by simpa using h2, by simpa using h3⟩
  · obtain ⟨s', h1, h2⟩ :=
      (claim7_norfair_heat.1 cx7 0 0 norfairSpeedTile (by decide) (by decide)
        (by decide) (by rfl) (by decide) (by decide) (by decide)).2.1
        (by decide) (by decide)
    exact ⟨s', h1, by simpa using h2⟩
  · obtain ⟨s3, heq, hE, hG⟩ :=
      claim7_norfair_heat.2.1 norfairSupersTile 1 1 wit7s0
        ((handle_click 1 1 cx7v).getD cx7v) (by decide) (by rfl)
    exact ⟨s3, heq⟩
  · obtain ⟨s', h1, h2, h3⟩ :=
      (claim7_norfair_heat.1 cx7m 0 0 norfairMissilesTile (by decide)
        (by decide) (by decide) (by rfl) (by decide) (by decide)
        (by decide)).2.2.2.2 0 (by decide) (by decide) (by decide) (by decide)
        (by decide)
    exact ⟨s', h1, by simpa using h2, by simpa using h3⟩

/-! ## Claim C8: the player attack cadence -/

/-- Claim C8, counterexample. The cadence tick is skipped by the coin flip
alone: in `cx8` the boss timer is at 0 (far from firing, so no first strike
consumed the player's action) yet with a successful flip the player attack
timer stays at 5 instead of advancing to 6 as the claim requires. -/
theorem claim8_counterexample :
    (update true (fun _ => false) cx8).map Game.player_attack_timer = some 5 ∧
      (5 : Nat) ≠ 5 + 1 := by
  constructor
  · rfl
  · decide

/-- Claim C8, amended. On a tick where the boss/enemy timer does not fire,
the player cadence is governed by the coin flip alone: a successful flip
freezes the player attack timer (and fires no attack) even though the
first-strike path did not run, while with a failed flip the timer advances
by one and the player attack fires exactly when it reaches 30. -/
theorem claim8_player_cadence :
    ∀ (s : Game) (flip : Bool) (oracle : Nat → Bool),
      s.game_over = false → s.boss_turn_timer + 1 < 60 →
      ((flip = true →
        update flip oracle s = some
          { s with
            max_energy := 99 + (s.inventory.energy_tank : Int) * 100
            boss_turn_timer := s.boss_turn_timer + 1 })
      ∧ (flip = false → s.player_attack_timer + 1 < 30 →
        update flip oracle s = some
          { s with
            max_energy := 99 + (s.inventory.energy_tank : Int) * 100
            boss_turn_timer := s.boss_turn_timer + 1
            player_attack_timer := s.player_attack_timer + 1 })
      ∧ (flip = false → 30 ≤ s.player_attack_timer + 1 →
        update flip oracle s = process_player_attacks oracle
          { s with
            max_energy := 99 + (s.inventory.energy_tank : Int) * 100
            boss_turn_timer := s.boss_turn_timer + 1
            player_attack_timer := 0 })) := by
  intro s flip oracle hgo hbt
  have hb2 : ¬ 60 ≤ s.boss_turn_timer + 1 := by omega
  refine ⟨?_, ?_, ?_⟩
  · intro hflip
    subst hflip
    unfold update
    simp [hgo, hb2]
  · intro hflip hpt
    subst hflip
    have hp2 : ¬ 30 ≤ s.player_attack_timer + 1 := by omega
    unfold update
    simp [hgo, hb2, hp2]
    intro h
    exact absurd h (by omega)
  · intro hflip hpt
    subst hflip
    unfold update
    simp [hgo, hb2, hpt]
    intro h
    exact absurd h (by omega)

/-- A variant of `cx8` whose cadence timer is about to fire. -/
def wit8 : Game := { cx8 with player_attack_timer := 29 }

/-- Witness for C8: all three cadence behaviours at concrete states. -/
theorem claim8_witness :
    (update true (fun _ => false) cx8 = some
      { cx8 with
        max_energy := 99 + (cx8.inventory.energy_tank : Int) * 100
        boss_turn_timer := cx8.boss_turn_timer + 1 })
    ∧ (update false (fun _ => false) cx8 = some
      { cx8 with
        max_energy := 99 + (cx8.inventory.energy_tank : Int) * 100
        boss_turn_timer := cx8.boss_turn_timer + 1
        player_attack_timer := cx8.player_attack_timer + 1 })
    ∧ (update false (fun _ => false) wit8 = process_player_attacks
        (fun _ => false)
        { wit8 with
          max_energy := 99 + (wit8.inventory.energy_tank : Int) * 100
          boss_turn_timer := wit8.boss_turn_timer + 1
          player_attack_timer := 0 }) :=
  ⟨(claim8_player_cadence cx8 true (fun _ => false) (by decide) (by decide)).1
      rfl,
   (claim8_player_cadence cx8 false (fun _ => false) (by decide)
      (by decide)).2.1 rfl (by decide),
   (claim8_player_cadence wit8 false (fun _ => false) (by decide)
      (by decide)).2.2 rfl (by decide)⟩

/-! ## Claim C10: a terminal state suspends ticks but not reveals -/

/-- Off Norfair (or with Varia) the heat check is the identity. -/
theorem norfair_check_neg {tile : Tile} {s : Game}
    (h : ¬(tile.area = AreaType.norfair ∧ s.inventory.varia = false)) :
    norfair_check tile s = s := by
  unfold norfair_check
  rw [if_neg h]

/-- The heat check never touches the grid, the reveal list, the inventory
or the score. -/
theorem norfair_check_parts (tile : Tile) (s : Game) :
    (norfair_check tile s).grid = s.grid ∧
      (norfair_check tile s).revealed_tiles = s.revealed_tiles ∧
      (norfair_check tile s).inventory = s.inventory ∧
      (norfair_check tile s).score = s.score := by
  unfold norfair_check
  split
  · split <;> simp
  · simp

/-- A game-over session with an unrevealed missiles tile at `(0, 0)`. -/
def cx10 : Game :=
  { game0 with
    grid := (List.replicate 100 emptyTile).set 0 missilesTile
    game_over := true }

/-- Claim C10. A terminal state suspends only tick processing: with game over
set, `update` returns the state unchanged, yet `handle_click` still fully
processes a legal reveal — shown for a consumable pickup (without the X-ray
scope): the tile flips, the reveal is recorded, the counter increments, the
score grows, and the Norfair heat (when applicable) still hits the
energy. -/
theorem claim10_terminal_state :
    ∀ (s : Game) (flip : Bool) (oracle : Nat → Bool) (gx gy : Nat)
      (tile : Tile),
      s.game_over = true →
      update flip oracle s = some s
      ∧ (is_fight_active s = false → gx < GRID_SIZE → gy < GRID_SIZE →
          s.grid.get? (gy * GRID_SIZE + gx) = some tile →
          tile.state = TileState.face_down →
          can_click_tile gx gy s.revealed_tiles = true →
          ¬(tile.area = AreaType.maridia ∧ s.inventory.gravity = false) →
          tile.tile_type = TileType.item → tile.item_id = "missiles" →
          s.inventory.xray = false →
          ∃ s', handle_click gx gy s = some s' ∧
            s'.grid = s.grid.set (gy * GRID_SIZE + gx)
              { tile with state := TileState.face_up } ∧
            s'.revealed_tiles = s.revealed_tiles ++ [(gx, gy)] ∧
            s'.inventory.missiles = s.inventory.missiles + 1 ∧
            s'.score = s.score + item_scores_get "missiles" ∧
            s'.player_energy =
              (if tile.area = AreaType.norfair ∧ s.inventory.varia = false
               then s.player_energy - 25 else s.player_energy)) := by
  intro s flip oracle gx gy tile hgo
  constructor
  · unfold update
    simp [hgo]
  · intro hf hx hy ht hd hc hm hi hid hxr
    have hxr2 : ∀ m : Nat,
        (Inventory.store s.inventory "missiles" (InvEntry.counter m)).xray
          = false := by
      intro m
      simp [Inventory.store, hxr]
    have hvr2 : ∀ m : Nat,
        (Inventory.store s.inventory "missiles" (InvEntry.counter m)).varia
          = s.inventory.varia := by
      intro m
      simp [Inventory.store]
    have hmr2 : ∀ m : Nat,
        (Inventory.store s.inventory "missiles" (InvEntry.counter m)).missiles
          = m := by
      intro m
      simp [Inventory.store]
    have hlu : s.inventory.lookup "missiles" =
        some (InvEntry.counter s.inventory.missiles) := by
      simp [Inventory.lookup]
    unfold handle_click finish_item_pickup
    rw [ht]
    simp only [hf, Bool.false_eq_true, if_false, ite_false, hx, hy, and_self,
      if_true, ite_true, hd, hc, and_true, hm, hi, hid]
    rw [hlu]
    dsimp only
    rw [add_item_score_and_tank_eq "missiles" (by decide)]
    simp only [hxr2, Bool.false_eq_true, if_false, ite_false, Option.map_some']
    refine ⟨_, rfl, ?_, ?_, ?_, ?_, ?_⟩
    · rw [(norfair_check_parts _ _).1]
    · rw [(norfair_check_parts _ _).2.1]
    · rw [(norfair_check_parts _ _).2.2.1]
      simp [hmr2]
    · rw [(norfair_check_parts _ _).2.2.2]
    · by_cases hn : tile.area = AreaType.norfair ∧ s.inventory.varia = false
      · rw [norfair_check_eq tile _ hn.1 (by simp [hvr2, hn.2])]
        simp [hn]
      · rw [norfair_check_neg (by simpa [hvr2] using hn)]
        simp [hn]

/-- Witness for C10: in the game-over session `cx10`, the tick is a no-op
while clicking the missiles tile still collects it and scores. -/
theorem claim10_witness :
    update true (fun _ => false) cx10 = some cx10 ∧
      ∃ s', handle_click 0 0 cx10 = some s' ∧ s'.inventory.missiles = 1 ∧
        s'.score = 10 := by
  obtain ⟨h1, h2⟩ :=
    claim10_terminal_state cx10 true (fun _ => false) 0 0 missilesTile (by rfl)
  obtain ⟨s', k1, k2, k3, k4, k5, k6⟩ := h2 (by decide) (by decide) (by decide)
    (by rfl) (by decide) (by decide) (by decide) (by decide) (by decide)
    (by decide)
  exact ⟨h1, s', k1, by rw [k4]; decide, by rw [k5]; decide⟩

/-! ## Claim C4: health monotonicity and the Destroyed transition -/

/-- The per-tile evolution invariant of a player attack pass: health never
increases and the Destroyed state is never left. -/
def tileMono (a b : Tile) : Prop :=
  b.health ≤ a.health ∧
    (a.state = TileState.destroyed → b.state = TileState.destroyed)

theorem tileMono_refl (t : Tile) : tileMono t t := ⟨le_refl _, fun h => h⟩

theorem tileMono_trans {a b c : Tile} (h1 : tileMono a b) (h2 : tileMono b c) :
    tileMono a c :=
  ⟨le_trans h2.1 h1.1, fun h => h2.2 (h1.2 h)⟩

theorem forall2_tileMono_refl : ∀ l : List Tile, List.Forall₂ tileMono l l
  | [] => List.Forall₂.nil
  | t :: ts => List.Forall₂.cons (tileMono_refl t) (forall2_tileMono_refl ts)

theorem forall2_tileMono_append :
    ∀ {a b c d : List Tile}, List.Forall₂ tileMono a b →
      List.Forall₂ tileMono c d → List.Forall₂ tileMono (a ++ c) (b ++ d) := by
  intro a b c d h1 h2
  induction h1 with
  | nil => exact h2
  | cons hh _ ih => exact List.Forall₂.cons hh ih

theorem forall2_tileMono_trans :
    ∀ {a b c : List Tile}, List.Forall₂ tileMono a b →
      List.Forall₂ tileMono b c → List.Forall₂ tileMono a c := by
  intro a b c h1
  induction h1 generalizing c with
  | nil =>
    intro h2
    cases h2
    exact List.Forall₂.nil
  | cons hh _ ih =>
    intro h2
    cases h2 with
    | cons hh2 ht2 => exact List.Forall₂.cons (tileMono_trans hh hh2) (ih ht2)

/-- The Ceres special-case Ridley drain respects the invariant: health can
only go down (to `max 0 (health − 1000)`) and no reveal state changes. -/
theorem reduce_ridley_mono (l : List Tile) :
    List.Forall₂ tileMono l (reduce_ridley l) := by
  induction l with
  | nil => exact List.Forall₂.nil
  | cons t ts ih =>
    refine List.Forall₂.cons ?_ ih
    unfold tileMono
    dsimp [reduce_ridley]
    split
    · next hcond =>
      refine ⟨?_, fun hh => hh⟩
      show (max 0 (t.health - 1000) : Int) ≤ t.health
      have := hcond.2.2
      omega
    · exact ⟨le_refl _, fun hh => hh⟩

theorem reduce_ridley_append (a b : List Tile) :
    reduce_ridley (a ++ b) = reduce_ridley a ++ reduce_ridley b :=
  List.map_append _ a b

/-- Replacing the head of the unvisited suffix by a `tileMono`-related tile
respects the whole-grid relation. -/
theorem forall2_step (done ts : List Tile) {t t1 : Tile} (h : tileMono t t1) :
    List.Forall₂ tileMono (done ++ t :: ts) (done ++ t1 :: ts) :=
  forall2_tileMono_append (forall2_tileMono_refl done)
    (List.Forall₂.cons h (forall2_tileMono_refl ts))

/-- Each step of the player attack pass only lowers health (by the player
damage, or to 0 on a kill, or by the Ceres drain) and only enters — never
leaves — the `destroyed` state. -/
theorem ppaAux_tileMono (inv : Inventory) (oracle : Nat → Bool) :
    ∀ (fuel : Nat) (done rest : List Tile) (k score : Nat)
      (d : List (String × Nat)) (go vic : Bool)
      (out : List Tile × Nat × List (String × Nat) × Bool × Bool),
      ppaAux inv oracle fuel done rest k score d go vic = some out →
      List.Forall₂ tileMono (done ++ rest) out.1 := by
  intro fuel
  induction fuel with
  | zero =>
    intro done rest k score d go vic out h
    cases rest with
    | nil =>
      simp only [ppaAux, Option.some_inj] at h
      subst h
      simpa using forall2_tileMono_refl done
    | cons t ts =>
      simp only [ppaAux, Option.some_inj] at h
      subst h
      exact forall2_tileMono_refl _
  | succ n ih =>
    intro done rest k score d go vic out h
    cases rest with
    | nil =>
      simp only [ppaAux, Option.some_inj] at h
      subst h
      simpa using forall2_tileMono_refl done
    | cons t ts =>
      rw [ppaAux] at h
      dsimp only at h
      split at h
      case isTrue hcomb =>
        split at h
        case isTrue hsurvive =>
          have ihh := ih _ _ _ _ _ _ _ _ h
          rw [List.append_assoc, List.singleton_append] at ihh
          refine forall2_tileMono_trans (forall2_step done ts ?_) ihh
          refine ⟨?_, fun hh => hh⟩
          have hd0 : (0 : Int) ≤ ((get_player_damage inv t.item_id : Nat) : Int) :=
            Int.natCast_nonneg _
          dsimp
          omega
        case isFalse hdead =>
          have ht0 : (0 : Int) < t.health := hcomb.2.2
          split at h
          case isTrue hboss =>
            split at h
            case h_1 => exact absurd h (by simp)
            case h_2 d1 hd1 =>
              split at h
              case isTrue hceres =>
                have ihh := ih _ _ _ _ _ _ _ _ h
                rw [← reduce_ridley_append, List.append_assoc,
                  List.singleton_append] at ihh
                refine forall2_tileMono_trans (forall2_step done ts ?_)
                  (forall2_tileMono_trans (reduce_ridley_mono _) ihh)
                exact ⟨by dsimp; omega, fun _ => rfl⟩
              case isFalse =>
                split at h
                case isTrue hmb =>
                  simp only [Option.some_inj] at h
                  subst h
                  dsimp only
                  exact forall2_step done ts ⟨by dsimp; omega, fun _ => rfl⟩
                case isFalse =>
                  have ihh := ih _ _ _ _ _ _ _ _ h
                  rw [List.append_assoc, List.singleton_append] at ihh
                  exact forall2_tileMono_trans
                    (forall2_step done ts ⟨by dsimp; omega, fun _ => rfl⟩) ihh
          case isFalse henemy =>
            have ihh := ih _ _ _ _ _ _ _ _ h
            rw [List.append_assoc, List.singleton_append] at ihh
            exact forall2_tileMono_trans
              (forall2_step done ts ⟨by dsimp; omega, fun _ => rfl⟩) ihh
      case isFalse hnc =>
        have ihh := ih _ _ _ _ _ _ _ _ h
        rw [List.append_assoc, List.singleton_append] at ihh
        exact forall2_tileMono_trans (forall2_step done ts (tileMono_refl t)) ihh

/-- Claim C4, counterexample. Health reaching 0 does not always yield the
Destroyed state: destroying Ceres Station while a revealed Ridley stands at
1000 health drains Ridley to exactly 0 health, yet his tile stays
`face_up` — the Ceres special case clamps health without the Destroyed
transition. -/
theorem claim4_counterexample :
    (process_player_attacks (fun _ => false) cx4).map
        (fun t => t.grid.map fun u => (u.item_id, u.state, u.health)) =
      some [("ceres_station", TileState.destroyed, 0),
        ("ridley", TileState.face_up, 0)] ∧
      TileState.face_up ≠ TileState.destroyed := by
  constructor
  · rfl
  · decide

/-- Claim C4, amended. Over a whole player-attack pass — the only code that
changes combat health or reaches Destroyed — every tile's health is
monotonically non-increasing and the Destroyed state is terminal (tile by
tile, via `List.Forall₂ tileMono`).  Direct player-attack kills do clamp
health to 0 and transition to Destroyed, but the Ceres special case drains
Ridley's health (clamped at 0) without the Destroyed transition, so "health
≤ 0 implies Destroyed" fails in general (see the counterexample). -/
theorem claim4_health_monotone :
    ∀ (oracle : Nat → Bool) (s s' : Game),
      process_player_attacks oracle s = some s' →
      List.Forall₂ tileMono s.grid s'.grid := by
  intro oracle s s' h
  unfold process_player_attacks at h
  cases hp : ppaAux s.inventory oracle s.grid.length [] s.grid 0 s.score
      s.boss_defeats s.game_over s.victory with
  | none =>
    rw [hp] at h
    simp at h
  | some out =>
    rw [hp] at h
    simp only [Option.map_some', Option.some_inj] at h
    subst h
    have hm := ppaAux_tileMono s.inventory oracle _ _ _ _ _ _ _ _ _ hp
    simpa using hm

/-- Witness for C4: the pass over `wit4` (a lone surviving geemer). -/
theorem claim4_witness :
    List.Forall₂ tileMono wit4.grid
      ((process_player_attacks (fun _ => false) wit4).getD wit4).grid :=
  claim4_health_monotone (fun _ => false) wit4 _ (by rfl)

end MetroidTiled
